import Mathlib

/-!
Shallow embedding of the item-catalog core of this repository: the item
repository over the relational store (src/go/app/infra.go), the image blob
writer `StoreImage`, and the multipart request parsing exercised by
src/go/app/server_test.go. Tables are embedded as lists of rows; the
autoincrement primary keys are embedded as explicit counters on the store.
Failures of the underlying database driver and of the filesystem are
embedded as explicit oracle arguments where the corresponding Go code
branches on them.
-/

namespace Catalog

/-- The taxonomy kinds of the specification's error design. -/
inductive ErrKind where
  | validationError
  | storageError
  | notFoundError
deriving DecidableEq, Repr

/-- A Go error value as it flows through the repository layer.
`errNoRows` is `sql.ErrNoRows`, the sentinel the driver hands to `Scan`
when a single-row query matches nothing; `native msg` is any other error
value produced by the storage engine or the filesystem; `wrapped` is an
error wrapped into one of the taxonomy kinds with added context. The Go
source in infra.go never constructs a wrapped error. -/
inductive GoError where
  | errNoRows
  | native (msg : String)
  | wrapped (kind : ErrKind) (context : String) (inner : GoError)
deriving DecidableEq, Repr

/-- True exactly for errors wrapped into one of the taxonomy kinds. -/
def GoError.isWrapped : GoError → Bool
  | .wrapped _ _ _ => true
  | _ => false

/-- `Item` from infra.go: the domain record with an integer identifier, a
name, a category (as text) and the stored image reference name. -/
structure Item where
  ID : Nat
  Name : String
  Category : String
  ImageName : String
deriving DecidableEq, Repr

/-- A row of the `categories` table: `id` (primary key, autoincrement) and
`name`. -/
structure CategoryRow where
  id : Nat
  name : String
deriving DecidableEq, Repr

/-- A row of the `items` table: `id` (primary key, autoincrement), `name`,
`category_id` (foreign key into `categories`) and `image_name`. -/
structure ItemRow where
  id : Nat
  name : String
  category_id : Nat
  image_name : String
deriving DecidableEq, Repr

/-- The relational store behind `./db/mercari.sqlite3`: the two tables and
the autoincrement counters that number the next inserted rows. -/
structure Store where
  categories : List CategoryRow
  items : List ItemRow
  nextCategoryId : Nat
  nextItemId : Nat
deriving DecidableEq, Repr

/-- `SELECT id FROM categories WHERE name = ?` read through
`QueryRow`/`Scan`: the first matching row's id, or the no-rows condition. -/
def queryCategoryId (s : Store) (name : String) : Option Nat :=
  (s.categories.find? (fun c => c.name == name)).map (fun c => c.id)

/-- `Insert` from infra.go: look the category name up; on `sql.ErrNoRows`
insert a category row and re-read its id; then insert the item row with the
resolved `category_id`. Returns the Go error value (`none` is Go's `nil`)
and the store after the call. Row ids are assigned by the autoincrement
counters; the item's own `ID` field is ignored, as in the Go code. -/
def Insert (s : Store) (item : Item) : Option GoError × Store :=
  match queryCategoryId s item.Category with
  | some category_id =>
      (none,
       { s with
          items := s.items ++ [⟨s.nextItemId, item.Name, category_id, item.ImageName⟩],
          nextItemId := s.nextItemId + 1 })
  | none =>
      let s1 : Store :=
        { s with
           categories := s.categories ++ [⟨s.nextCategoryId, item.Category⟩],
           nextCategoryId := s.nextCategoryId + 1 }
      match queryCategoryId s1 item.Category with
      | some category_id =>
          (none,
           { s1 with
              items := s1.items ++ [⟨s1.nextItemId, item.Name, category_id, item.ImageName⟩],
              nextItemId := s1.nextItemId + 1 })
      | none => (some .errNoRows, s1)

/-- The read-side join
`items inner join categories on items.category_id = categories.id`,
enumerated in the storage-native nested-loop order. -/
def innerJoin (s : Store) : List (ItemRow × CategoryRow) :=
  s.items.flatMap (fun it =>
    (s.categories.filter (fun c => c.id == it.category_id)).map (fun c => (it, c)))

/-- `GetItems` from infra.go on a healthy database: scan every joined row
into an `Item`, taking the category name from the joined category row. -/
def GetItems (s : Store) : Except GoError (List Item) :=
  .ok ((innerJoin s).map (fun p =>
    { ID := p.1.id, Name := p.1.name, Category := p.2.name, ImageName := p.1.image_name }))

/-- `GetItems` with the lower-level failures of database/sql made explicit:
`openErr` is the outcome of `sql.Open`, `queryErr` of `db.Query`. The Go
code logs each failure and returns the received error value to the
caller. -/
def GetItemsE (openErr queryErr : Option GoError) (s : Store) : Except GoError (List Item) :=
  match openErr with
  | some e => .error e
  | none =>
    match queryErr with
    | some e => .error e
    | none => GetItems s

/-- `GetItemByKeyword` from infra.go: `SELECT * FROM items WHERE name = ?`,
an exact match on the item name column with no category join. The integer
`category_id` column is scanned into the string `Category` field, so the
field carries the stored integer rendered in decimal. -/
def GetItemByKeyword (s : Store) (keyword : String) : Except GoError (List Item) :=
  .ok ((s.items.filter (fun r => r.name == keyword)).map (fun r =>
    { ID := r.id, Name := r.name, Category := toString r.category_id,
      ImageName := r.image_name }))

/-- `GetItemById` from infra.go on a healthy database: `QueryRow` over the
join restricted to `items.id = ?`; `Scan` yields `sql.ErrNoRows` when the
query matches nothing. -/
def GetItemById (s : Store) (id : Nat) : Except GoError Item :=
  match (innerJoin s).find? (fun p => p.1.id == id) with
  | some p =>
      .ok { ID := p.1.id, Name := p.1.name, Category := p.2.name,
            ImageName := p.1.image_name }
  | none => .error .errNoRows

/-- `GetItemById` with the outcome of `sql.Open` made explicit; an open
failure is logged and the received error value is returned. -/
def GetItemByIdE (openErr : Option GoError) (s : Store) (id : Nat) : Except GoError Item :=
  match openErr with
  | some e => .error e
  | none => GetItemById s id

/-- `itemRepository` from infra.go: the configuration the repository value
itself carries — the path of the JSON file used for bookkeeping. -/
structure ItemRepositoryS where
  fileName : String
deriving DecidableEq, Repr

/-- `NewItemRepository` from infra.go. -/
def NewItemRepository : ItemRepositoryS := ⟨"items.json"⟩

/-- `GetFileName` from infra.go. -/
def GetFileName (i : ItemRepositoryS) : String := i.fileName

/-- One call on the repository surface. -/
inductive RepoOp where
  | opGetItems
  | opInsert (item : Item)
  | opGetItemByKeyword (keyword : String)
  | opGetItemById (id : Nat)
deriving Repr

/-- Effect of one call on the repository value and the backing store. The
Go method bodies never assign to the receiver's fields; only `Insert`
writes to the store. -/
def runOp (r : ItemRepositoryS) (s : Store) : RepoOp → ItemRepositoryS × Store
  | .opGetItems => (r, s)
  | .opInsert item => (r, (Insert s item).2)
  | .opGetItemByKeyword _ => (r, s)
  | .opGetItemById _ => (r, s)

/-- A sequence of repository calls, run left to right. -/
def runOps (r : ItemRepositoryS) (s : Store) : List RepoOp → ItemRepositoryS × Store
  | [] => (r, s)
  | op :: ops => runOps (runOp r s op).1 (runOp r s op).2 ops

/-- Filesystem oracle for `StoreImage`: file contents by path, plus the
paths at which `os.Create` respectively `file.Write` fail. -/
structure FileSys where
  files : List (String × List Nat)
  createFails : List String
  writeFails : List String
deriving DecidableEq, Repr

/-- Replace the content stored at `path`. -/
def FileSys.setFile (fs : FileSys) (path : String) (content : List Nat) : FileSys :=
  { fs with files := (path, content) :: fs.files.filter (fun p => p.1 != path) }

/-- `StoreImage` from infra.go. `os.Create` creates or truncates the
target, then the image bytes are written. In the source, the error branch
of `os.Create` and the error branch of `file.Write` each log the error but
their return statements are commented out, so control falls through to the
final `return nil` on every path (a create failure leaves a nil file
handle, on which the write also fails and is also only logged). -/
def StoreImage (fs : FileSys) (fileName : String) (image : List Nat) : Option GoError × FileSys :=
  if fs.createFails.contains fileName then
    (none, fs)
  else
    if fs.writeFails.contains fileName then
      (none, fs.setFile fileName [])
    else
      (none, fs.setFile fileName image)

/-- A decoded multipart form: named text fields and named file parts. Per
the spec's decoder boundary, text-field lookup returns the empty string
when the field is absent; file-part lookup returns "not present". -/
structure MultipartForm where
  fields : List (String × String)
  files : List (String × List Nat)
deriving DecidableEq, Repr

/-- Named text-field lookup, empty string if absent. -/
def MultipartForm.textField (f : MultipartForm) (name : String) : String :=
  match f.fields.find? (fun p => p.1 == name) with
  | some p => p.2
  | none => ""

/-- Named file-part lookup, `none` if not present. -/
def MultipartForm.filePart (f : MultipartForm) (name : String) : Option (List Nat) :=
  (f.files.find? (fun p => p.1 == name)).map (fun p => p.2)

/-- `AddItemRequest` from server.go, as exercised by server_test.go. -/
structure AddItemRequest where
  Name : String
  Category : String
  Image : List Nat
deriving DecidableEq, Repr

/-- Modelled from the spec: `parseAddItemRequest` lives in server.go, which
is not among the sources here (only its test, server_test.go, is). Per the
spec it extracts the `name` and `category` text fields and the `image`
file part from the multipart body, fails with a `ValidationError` if
`name` is empty, if `category` is empty, or if the image part is absent or
its payload is empty (a present-but-zero-length image part is treated
identically to an absent one), and on success returns the request holding
exactly the three fields. -/
def parseAddItemRequest (form : MultipartForm) : Except ErrKind AddItemRequest :=
  let name := form.textField "name"
  let category := form.textField "category"
  if name = "" then
    .error .validationError
  else if category = "" then
    .error .validationError
  else
    match form.filePart "image" with
    | none => .error .validationError
    | some image =>
      if image = [] then
        .error .validationError
      else
        .ok { Name := name, Category := category, Image := image }

/-- The store after an `Insert` whose category lookup hit the no-rows
condition: the category row is created, then the item row referencing it. -/
def insertNewStore (s : Store) (item : Item) : Store :=
  { categories := s.categories ++ [⟨s.nextCategoryId, item.Category⟩],
    items := s.items ++ [⟨s.nextItemId, item.Name, s.nextCategoryId, item.ImageName⟩],
    nextCategoryId := s.nextCategoryId + 1,
    nextItemId := s.nextItemId + 1 }

/-- After creating the category row for a previously absent name, the
exact-match lookup finds it and returns the id it was assigned. -/
theorem queryCategoryId_after_create (s : Store) (name : String)
    (h : queryCategoryId s name = none) :
    queryCategoryId
      { s with categories := s.categories ++ [⟨s.nextCategoryId, name⟩],
               nextCategoryId := s.nextCategoryId + 1 } name = some s.nextCategoryId := by
  have h' : s.categories.find? (fun c => c.name == name) = none := by
    simpa [queryCategoryId] using h
  simp [queryCategoryId, List.find?_append, h']

/-- `Insert` on a store whose categories table lacks the item's category
name: the no-rows branch runs, creating the category and the item row. -/
theorem Insert_new_category (s : Store) (item : Item)
    (h : queryCategoryId s item.Category = none) :
    Insert s item = (none, insertNewStore s item) := by
  have h2 := queryCategoryId_after_create s item.Category h
  simp only [Insert, h, h2, insertNewStore]

theorem Insert_new_category_fst (s : Store) (item : Item)
    (h : queryCategoryId s item.Category = none) : (Insert s item).1 = none := by
  rw [Insert_new_category s item h]

theorem Insert_new_category_snd (s : Store) (item : Item)
    (h : queryCategoryId s item.Category = none) :
    (Insert s item).2 = insertNewStore s item := by
  rw [Insert_new_category s item h]

/-- `Insert` on a store whose categories table already resolves the item's
category name to `cid`: only the item row is appended. -/
theorem Insert_existing_category (s : Store) (item : Item) (cid : Nat)
    (h : queryCategoryId s item.Category = some cid) :
    Insert s item =
      (none, { s with items := s.items ++ [⟨s.nextItemId, item.Name, cid, item.ImageName⟩],
                      nextItemId := s.nextItemId + 1 }) := by
  simp only [Insert, h]

theorem Insert_existing_category_fst (s : Store) (item : Item) (cid : Nat)
    (h : queryCategoryId s item.Category = some cid) : (Insert s item).1 = none := by
  rw [Insert_existing_category s item cid h]

theorem Insert_existing_category_snd (s : Store) (item : Item) (cid : Nat)
    (h : queryCategoryId s item.Category = some cid) :
    (Insert s item).2 =
      { s with items := s.items ++ [⟨s.nextItemId, item.Name, cid, item.ImageName⟩],
               nextItemId := s.nextItemId + 1 } := by
  rw [Insert_existing_category s item cid h]

/-- No joined row has a given item id when no item row carries that id. -/
theorem find?_joinList_id_none (cats : List CategoryRow) (l : List ItemRow) (n : Nat)
    (h : ∀ r ∈ l, r.id ≠ n) :
    (l.flatMap (fun it =>
        (cats.filter (fun c => c.id == it.category_id)).map (fun c => (it, c)))).find?
      (fun p => p.1.id == n) = none := by
  rw [List.find?_flatMap_eq_none]
  intro x hx y hy
  rcases List.mem_map.mp hy with ⟨c, _, rfl⟩
  simp [h x hx]

/-- `runOps` never changes the repository value: no operation assigns to
the receiver's fields. -/
theorem runOps_fst (ops : List RepoOp) : ∀ (r : ItemRepositoryS) (s : Store),
    (runOps r s ops).1 = r := by
  induction ops with
  | nil => intro r s; rfl
  | cons op ops ih =>
      intro r s
      have hop : (runOp r s op).1 = r := by cases op <;> rfl
      simp only [runOps, hop, ih]

/-- Claim C1: evaluated at a file location whose creation fails (and at one
whose write fails), `StoreImage` still returns no error: the failures are
logged, but the return statements in both error branches are commented out
in the source, so the error claimed by the spec is never propagated. -/
theorem c1_storeImage_returns_nil_on_failure :
    (StoreImage ⟨[], ["images/blocked.jpg"], []⟩ "images/blocked.jpg" [1, 2, 3]).1 = none ∧
    (StoreImage ⟨[], [], ["images/torn.jpg"]⟩ "images/torn.jpg" [1, 2, 3]).1 = none := by
  exact ⟨rfl, rfl⟩

/-- Claim C2, counterexample: when the storage engine fails at `sql.Open`
with its native error value, `GetItems` returns exactly that native value
to the caller — not an error wrapped into one of the taxonomy kinds. -/
theorem c2_counterexample :
    GetItemsE (some (.native "unable to open database file")) none ⟨[], [], 1, 1⟩ =
      .error (.native "unable to open database file") ∧
    (GoError.native "unable to open database file").isWrapped = false := by
  exact ⟨rfl, rfl⟩

/-- Claim C2, amended: every lower-level failure handed to `GetItems` (at
open or at query) or to `GetItemById` (at open) is logged and returned to
the caller unchanged — a raw passthrough of the storage engine's native
error value, never a wrapped taxonomy error. -/
theorem c2_amended_raw_passthrough (e : GoError) (qe : Option GoError) (s : Store) (id : Nat) :
    GetItemsE (some e) qe s = .error e ∧
    GetItemsE none (some e) s = .error e ∧
    GetItemByIdE (some e) s id = .error e := by
  exact ⟨rfl, rfl, rfl⟩

/-- Claim C3: for all non-empty `name` and `category` strings and every
non-empty `image` byte sequence, parsing the well-formed multipart body
carrying exactly those text fields and that file part yields the request
with the three fields and no error. -/
theorem c3_parse_well_formed (n c : String) (img : List Nat)
    (hn : n ≠ "") (hc : c ≠ "") (hi : img ≠ []) :
    parseAddItemRequest ⟨[("name", n), ("category", c)], [("image", img)]⟩ =
      .ok { Name := n, Category := c, Image := img } := by
  simp [parseAddItemRequest, MultipartForm.textField, MultipartForm.filePart,
    List.find?, hn, hc, hi]

/-- Claim C3, witness: the concrete request of the test suite. -/
theorem c3_witness :
    ("Alice" : String) ≠ "" ∧ ("people" : String) ≠ "" ∧ ([100] : List Nat) ≠ [] ∧
    parseAddItemRequest ⟨[("name", "Alice"), ("category", "people")], [("image", [100])]⟩ =
      .ok { Name := "Alice", Category := "people", Image := [100] } :=
  ⟨by decide, by decide, by decide,
   c3_parse_well_formed "Alice" "people" [100] (by decide) (by decide) (by decide)⟩

/-- Claim C4: for every multipart body whose `name` field is empty, whose
`category` field is empty, or whose `image` part is absent or has an empty
payload, parsing fails with a validation error and produces no request
value; a present-but-zero-length image part is rejected exactly like an
absent one. -/
theorem c4_parse_invalid_fails (form : MultipartForm)
    (h : form.textField "name" = "" ∨ form.textField "category" = "" ∨
         form.filePart "image" = none ∨ form.filePart "image" = some []) :
    parseAddItemRequest form = .error .validationError := by
  by_cases hn : form.textField "name" = ""
  · simp [parseAddItemRequest, hn]
  · by_cases hc : form.textField "category" = ""
    · simp [parseAddItemRequest, hn, hc]
    · rcases h with h | h | h | h
      · exact absurd h hn
      · exact absurd h hc
      · simp [parseAddItemRequest, hn, hc, h]
      · simp [parseAddItemRequest, hn, hc, h]

/-- Claim C4, witness: the test suite's all-empty request (empty name and
category fields, no image part). -/
theorem c4_witness :
    (MultipartForm.textField ⟨[("name", ""), ("category", "")], []⟩ "name" = "" ∨
      MultipartForm.textField ⟨[("name", ""), ("category", "")], []⟩ "category" = "" ∨
      MultipartForm.filePart ⟨[("name", ""), ("category", "")], []⟩ "image" = none ∨
      MultipartForm.filePart ⟨[("name", ""), ("category", "")], []⟩ "image" = some []) ∧
    parseAddItemRequest ⟨[("name", ""), ("category", "")], []⟩ = .error .validationError :=
  ⟨Or.inl (by decide),
   c4_parse_invalid_fails ⟨[("name", ""), ("category", "")], []⟩ (Or.inl (by decide))⟩

/-- Claim C9: on a store with no item rows, `GetItems` returns the empty
sequence and no error. -/
theorem c9_getItems_empty (s : Store) (h : s.items = []) :
    GetItems s = .ok [] := by
  simp [GetItems, innerJoin, h]

/-- Claim C9, witness: the concrete empty store. -/
theorem c9_witness :
    (Store.mk [] [] 1 1).items = [] ∧ GetItems (Store.mk [] [] 1 1) = .ok [] :=
  ⟨rfl, c9_getItems_empty (Store.mk [] [] 1 1) rfl⟩

/-- Claim C10: `GetFileName` returns the constant "items.json" fixed at
construction, and no sequence of repository operations changes it. -/
theorem c10_getFileName_constant :
    GetFileName NewItemRepository = "items.json" ∧
    ∀ (ops : List RepoOp) (s : Store),
      GetFileName (runOps NewItemRepository s ops).1 = GetFileName NewItemRepository := by
  refine ⟨rfl, ?_⟩
  intro ops s
  rw [runOps_fst]

/-- Claim C5: starting from a store whose categories table does not
contain the category name, two sequential successful `Insert` calls with
that same category name create exactly one category row: the first call
creates it, the second call's exact-match lookup finds the created row,
the second call leaves the categories table unchanged, and its item row
reuses the created identifier. -/
theorem c5_one_category_row (s : Store) (i1 i2 : Item)
    (h2 : i2.Category = i1.Category)
    (h0 : queryCategoryId s i1.Category = none) :
    (Insert s i1).1 = none ∧
    (Insert (Insert s i1).2 i2).1 = none ∧
    queryCategoryId (Insert s i1).2 i2.Category = some s.nextCategoryId ∧
    ((Insert (Insert s i1).2 i2).2).categories = ((Insert s i1).2).categories ∧
    ((Insert (Insert s i1).2 i2).2).items =
      ((Insert s i1).2).items ++
        [⟨((Insert s i1).2).nextItemId, i2.Name, s.nextCategoryId, i2.ImageName⟩] ∧
    (((Insert (Insert s i1).2 i2).2).categories.filter
      (fun c => c.name == i1.Category)).length = 1 := by
  have h0' : s.categories.find? (fun c => c.name == i1.Category) = none := by
    simpa [queryCategoryId] using h0
  have hfil : s.categories.filter (fun c => c.name == i1.Category) = [] := by
    rw [List.filter_eq_nil_iff]
    intro a ha
    simpa using List.find?_eq_none.mp h0' a ha
  rw [Insert_new_category_fst s i1 h0, Insert_new_category_snd s i1 h0]
  have hq : queryCategoryId (insertNewStore s i1) i2.Category = some s.nextCategoryId := by
    rw [h2]
    exact queryCategoryId_after_create s i1.Category h0
  rw [Insert_existing_category_fst _ i2 s.nextCategoryId hq,
      Insert_existing_category_snd _ i2 s.nextCategoryId hq]
  refine ⟨rfl, rfl, hq, rfl, rfl, ?_⟩
  simp [insertNewStore, List.filter_append, hfil]

/-- Claim C5, witness: two inserts of "people" items into the empty store. -/
theorem c5_witness :
    (Item.mk 0 "Bob" "people" "b.jpg").Category = (Item.mk 0 "Alice" "people" "a.jpg").Category ∧
    queryCategoryId (Store.mk [] [] 1 1) (Item.mk 0 "Alice" "people" "a.jpg").Category = none ∧
    (((Insert (Insert (Store.mk [] [] 1 1) (Item.mk 0 "Alice" "people" "a.jpg")).2
        (Item.mk 0 "Bob" "people" "b.jpg")).2).categories.filter
      (fun c => c.name == (Item.mk 0 "Alice" "people" "a.jpg").Category)).length = 1 :=
  ⟨rfl, rfl,
   (c5_one_category_row (Store.mk [] [] 1 1) (Item.mk 0 "Alice" "people" "a.jpg")
      (Item.mk 0 "Bob" "people" "b.jpg") rfl rfl).2.2.2.2.2⟩

/-- Claim C6: inserting an item whose category name is not yet present,
then reading back the identifier assigned to the new item row, returns the
item with its `Category` field equal to the original category name — the
round trip through category creation and the read-side join. -/
theorem c6_insert_getItemById_roundtrip (s : Store) (it : Item)
    (hnew : queryCategoryId s it.Category = none)
    (hfi : ∀ r ∈ s.items, r.id ≠ s.nextItemId)
    (hfc : ∀ c ∈ s.categories, c.id ≠ s.nextCategoryId) :
    GetItemById (Insert s it).2 s.nextItemId =
      .ok { ID := s.nextItemId, Name := it.Name, Category := it.Category,
            ImageName := it.ImageName } := by
  rw [Insert_new_category_snd s it hnew]
  have hfilc : s.categories.filter (fun c => c.id == s.nextCategoryId) = [] := by
    rw [List.filter_eq_nil_iff]
    intro c hc
    simp [hfc c hc]
  have hjoin : innerJoin (insertNewStore s it) =
      (s.items ++ [ItemRow.mk s.nextItemId it.Name s.nextCategoryId it.ImageName]).flatMap
        (fun r => ((s.categories ++ [CategoryRow.mk s.nextCategoryId it.Category]).filter
          (fun c => c.id == r.category_id)).map (fun c => (r, c))) := rfl
  rw [GetItemById, hjoin, List.flatMap_append, List.find?_append,
    find?_joinList_id_none _ _ _ hfi]
  simp [List.filter_append, hfilc]

/-- Claim C6, witness: the spec's concrete scenario on the empty store. -/
theorem c6_witness :
    queryCategoryId (Store.mk [] [] 1 1) "people" = none ∧
    GetItemById (Insert (Store.mk [] [] 1 1) (Item.mk 0 "Alice" "people" "dummy.jpg")).2 1 =
      .ok (Item.mk 1 "Alice" "people" "dummy.jpg") :=
  ⟨rfl,
   c6_insert_getItemById_roundtrip (Store.mk [] [] 1 1)
     (Item.mk 0 "Alice" "people" "dummy.jpg") rfl (by simp) (by simp)⟩

/-- Claim C7: for an id matching no item row, `GetItemById` returns the
no-rows sentinel `sql.ErrNoRows` — an error, not a zero-value item treated
as success — and that sentinel is neither a native storage-engine error
nor a wrapped `StorageError`. -/
theorem c7_getItemById_not_found (s : Store) (id : Nat)
    (h : ∀ r ∈ s.items, r.id ≠ id) :
    GetItemById s id = .error .errNoRows ∧
    (∀ msg, GoError.errNoRows ≠ GoError.native msg) ∧
    (∀ ctx e, GoError.errNoRows ≠ GoError.wrapped .storageError ctx e) := by
  refine ⟨?_, fun msg => by simp, fun ctx e => by simp⟩
  rw [GetItemById, innerJoin]
  rw [find?_joinList_id_none s.categories s.items id h]

/-- Claim C7, witness: looking id 42 up in the empty store. -/
theorem c7_witness :
    (∀ r ∈ (Store.mk [] [] 1 1).items, r.id ≠ 42) ∧
    GetItemById (Store.mk [] [] 1 1) 42 = .error .errNoRows :=
  ⟨by simp, (c7_getItemById_not_found (Store.mk [] [] 1 1) 42 (by simp)).1⟩

/-- Claim C8: `GetItemByKeyword` is an exact match on the item name column
only: after a successful `Insert` of an item, searching its name returns a
sequence containing that item (with the `Category` field carrying the raw
stored `category_id` value, since no join is performed), and every item in
the result carries exactly the searched name, so an item with a different
name never appears. -/
theorem c8_getItemByKeyword_exact (s : Store) (it : Item) :
    (Insert s it).1 = none ∧
    ∃ l, GetItemByKeyword (Insert s it).2 it.Name = .ok l ∧
      (∃ cid : Nat, (Item.mk s.nextItemId it.Name (toString cid) it.ImageName) ∈ l) ∧
      (∀ x ∈ l, x.Name = it.Name) := by
  cases hq : queryCategoryId s it.Category with
  | none =>
    rw [Insert_new_category_fst s it hq, Insert_new_category_snd s it hq]
    refine ⟨rfl, _, rfl, ⟨s.nextCategoryId, ?_⟩, ?_⟩
    · refine List.mem_map.mpr
        ⟨⟨s.nextItemId, it.Name, s.nextCategoryId, it.ImageName⟩, ?_, rfl⟩
      exact List.mem_filter.mpr ⟨by simp [insertNewStore], by simp⟩
    · intro x hx
      rcases List.mem_map.mp hx with ⟨r, hr, rfl⟩
      simpa using (List.mem_filter.mp hr).2
  | some cid =>
    rw [Insert_existing_category_fst s it cid hq, Insert_existing_category_snd s it cid hq]
    refine ⟨rfl, _, rfl, ⟨cid, ?_⟩, ?_⟩
    · refine List.mem_map.mpr
        ⟨⟨s.nextItemId, it.Name, cid, it.ImageName⟩, ?_, rfl⟩
      exact List.mem_filter.mpr ⟨by simp, by simp⟩
    · intro x hx
      rcases List.mem_map.mp hx with ⟨r, hr, rfl⟩
      simpa using (List.mem_filter.mp hr).2

end Catalog
